import Mathlib

/-!
A verification development for the bxmlrs decoders: a shallow embedding of
`src/bxmlrs/src/nom_parser.rs`, `src/bxmlrs/src/arsc_parser.rs` and
`src/bxmlrs/src/xml_parser.rs`, together with theorems settling the frozen
claims about them.

Modelling conventions:
* byte slices are `List Nat` (each element a byte value; machine-width
  reads take `% 256` explicitly);
* fallible nom parsers return `Option (remaining × value)`;
* a whole decoder run returns `RResult`: `ok` for a normal return, `err`
  for an early `Err` return, `crash` for a Rust panic (out-of-bounds slice
  indexing, `Option::unwrap` on `None`, the `unimplemented!` macro), and
  `fuelOut` when the explicit fuel that models an unbounded `loop`/`while`
  runs out — so `∀ fuel, run input fuel = fuelOut` states that the Rust
  loop diverges on `input`;
* `HashMap<u32, Package>` is modelled as an association list with
  insert-replaces-key semantics, which preserves exactly the lookups the
  code performs.
-/

namespace Bxmlrs

/-- The error kinds of `ParseError` (nom_parser.rs, lines 8-73).  The Rust
variants carry a diagnostic `String` payload that never influences control
flow, so the payloads are dropped.  The Rust variant named `String` is
`strE` here. -/
inductive PErr where
  | generic
  | chunkHeader
  | stringPoolHeader
  | bufferNotEnough
  | stringPool
  | strE
  | resourceMap
  | startNamespace
  | endNamespace
  | startElement
  | attribute
  | buildXml
  | packageHeader
  | typeStrings
  | keyStrings
  | typeSpecHeader
  | typeChunkHeader
  | typeChunkEntries
  | tableEntry
  | zip
  | file
  deriving DecidableEq, Repr

/-- Outcome of running a piece of the Rust decoder: a returned value, an
early `Err` return, a panic (`crash`), or exhaustion of the fuel that
models an unbounded loop (`fuelOut`). -/
inductive RResult (α : Type) where
  | ok : α → RResult α
  | err : PErr → RResult α
  | crash : RResult α
  | fuelOut : RResult α
  deriving DecidableEq, Repr

/-- nom's complete `le_u8`: read one byte. -/
def leU8 : List Nat → Option (List Nat × Nat)
  | [] => none
  | b :: rest => some (rest, b % 256)

/-- nom's complete `le_u16`: two bytes, little endian. -/
def leU16 : List Nat → Option (List Nat × Nat)
  | b0 :: b1 :: rest => some (rest, b0 % 256 + 256 * (b1 % 256))
  | _ => none

/-- nom's complete `le_u32`: four bytes, little endian. -/
def leU32 : List Nat → Option (List Nat × Nat)
  | b0 :: b1 :: b2 :: b3 :: rest =>
    some (rest, b0 % 256 + 256 * (b1 % 256) + 65536 * (b2 % 256) + 16777216 * (b3 % 256))
  | _ => none

/-- nom's `count(p, n)`: apply `p` exactly `n` times, all-or-nothing. -/
def countP {α : Type} (p : List Nat → Option (List Nat × α)) : Nat → List Nat → Option (List Nat × List α)
  | 0, input => some (input, [])
  | n + 1, input =>
    match p input with
    | none => none
    | some (rest, a) =>
      match countP p n rest with
      | none => none
      | some (rest2, l) => some (rest2, a :: l)

/-- Rust's slice expression `&b[i..]`: the suffix when `i ≤ b.len()`,
otherwise the program panics (modelled by `none` at call sites). -/
def sliceFrom (b : List Nat) (i : Nat) : Option (List Nat) :=
  if i ≤ b.length then some (b.drop i) else none

/-- U+FFFD, the replacement character used by Rust's lossy decoders. -/
def replChar : Char := Char.ofNat 0xFFFD

/-- Worker for `utf8Lossy`; the fuel (first argument) is given as the
list length, and every step consumes at least one list element. -/
def utf8LossyGo : Nat → List Nat → List Char
  | 0, _ => []
  | _, [] => []
  | fuel + 1, b0 :: rest =>
    if b0 < 0x80 then Char.ofNat b0 :: utf8LossyGo fuel rest
    else if b0 < 0xC2 then replChar :: utf8LossyGo fuel rest
    else if b0 < 0xE0 then
      match rest with
      | [] => [replChar]
      | b1 :: rest1 =>
        if 0x80 ≤ b1 ∧ b1 < 0xC0 then
          Char.ofNat ((b0 - 0xC0) * 64 + (b1 - 0x80)) :: utf8LossyGo fuel rest1
        else replChar :: utf8LossyGo fuel rest
    else if b0 < 0xF0 then
      match rest with
      | [] => [replChar]
      | b1 :: rest1 =>
        if (if b0 = 0xE0 then 0xA0 ≤ b1 ∧ b1 < 0xC0
            else if b0 = 0xED then 0x80 ≤ b1 ∧ b1 < 0xA0
            else 0x80 ≤ b1 ∧ b1 < 0xC0) then
          match rest1 with
          | [] => [replChar]
          | b2 :: rest2 =>
            if 0x80 ≤ b2 ∧ b2 < 0xC0 then
              Char.ofNat ((b0 - 0xE0) * 4096 + (b1 - 0x80) * 64 + (b2 - 0x80)) :: utf8LossyGo fuel rest2
            else replChar :: utf8LossyGo fuel rest1
        else replChar :: utf8LossyGo fuel rest
    else if b0 < 0xF5 then
      match rest with
      | [] => [replChar]
      | b1 :: rest1 =>
        if (if b0 = 0xF0 then 0x90 ≤ b1 ∧ b1 < 0xC0
            else if b0 = 0xF4 then 0x80 ≤ b1 ∧ b1 < 0x90
            else 0x80 ≤ b1 ∧ b1 < 0xC0) then
          match rest1 with
          | [] => [replChar]
          | b2 :: rest2 =>
            if 0x80 ≤ b2 ∧ b2 < 0xC0 then
              match rest2 with
              | [] => [replChar]
              | b3 :: rest3 =>
                if 0x80 ≤ b3 ∧ b3 < 0xC0 then
                  Char.ofNat ((b0 - 0xF0) * 262144 + (b1 - 0x80) * 4096 + (b2 - 0x80) * 64 + (b3 - 0x80)) :: utf8LossyGo fuel rest3
                else replChar :: utf8LossyGo fuel rest2
            else replChar :: utf8LossyGo fuel rest1
        else replChar :: utf8LossyGo fuel rest
    else replChar :: utf8LossyGo fuel rest

/-- Rust `String::from_utf8_lossy` on a byte list: WHATWG UTF-8 decoding
with substitution of maximal subparts (one U+FFFD per invalid subpart,
resuming at the offending byte). -/
def utf8Lossy (l : List Nat) : List Char :=
  utf8LossyGo l.length l

/-- Worker for `utf16Lossy`; the fuel (first argument) is given as the
list length, and every step consumes at least one list element. -/
def utf16LossyGo : Nat → List Nat → List Char
  | 0, _ => []
  | _, [] => []
  | fuel + 1, u :: rest =>
    if u < 0xD800 ∨ 0xE000 ≤ u then Char.ofNat u :: utf16LossyGo fuel rest
    else if u < 0xDC00 then
      match rest with
      | [] => [replChar]
      | v :: rest1 =>
        if 0xDC00 ≤ v ∧ v < 0xE000 then
          Char.ofNat (0x10000 + (u - 0xD800) * 1024 + (v - 0xDC00)) :: utf16LossyGo fuel rest1
        else replChar :: utf16LossyGo fuel rest
    else replChar :: utf16LossyGo fuel rest

/-- Rust `String::from_utf16_lossy` on a list of 16-bit code units:
well-formed surrogate pairs combine, every unpaired surrogate becomes one
U+FFFD. -/
def utf16Lossy (l : List Nat) : List Char :=
  utf16LossyGo l.length l

/-- `position(|&x| x == 0)` followed by truncation: keep everything before
the first zero element. -/
def truncAtZero (l : List Nat) : List Nat :=
  l.takeWhile (fun x => x ≠ 0)

/-- One hexadecimal digit, upper case (Rust `{:X}`). -/
def hexDigitU (n : Nat) : Char :=
  if n < 10 then Char.ofNat (48 + n) else Char.ofNat (55 + n)

/-- One hexadecimal digit, lower case (Rust `{:x}`). -/
def hexDigitL (n : Nat) : Char :=
  if n < 10 then Char.ofNat (48 + n) else Char.ofNat (87 + n)

/-- Digit accumulator for hex formatting; the first argument is fuel that
is always given as `n + 1`, enough for every digit of `n`. -/
def hexCore (dig : Nat → Char) : Nat → Nat → List Char → List Char
  | 0, _, acc => acc
  | fuel + 1, n, acc =>
    if n < 16 then dig n :: acc
    else hexCore dig fuel (n / 16) (dig (n % 16) :: acc)

/-- Rust `format!("{:X}", n)`. -/
def hexStrU (n : Nat) : String :=
  String.mk (hexCore hexDigitU (n + 1) n [])

/-- Rust `format!("{:x}", n)`. -/
def hexStrL (n : Nat) : String :=
  String.mk (hexCore hexDigitL (n + 1) n [])

/-- Fueled base-2 logarithm (fuel `n` always suffices for input `n`). -/
def log2Fuel : Nat → Nat → Nat
  | 0, _ => 0
  | fuel + 1, n => if n < 2 then 0 else log2Fuel fuel (n / 2) + 1

/-- Rust's `n as f32` for a `u32` value `n`, returned as the exact integer
the resulting float denotes: round `n` to 24 significant bits, ties to
even.  (Every `u32` converts to a finite integral `f32`.) -/
def roundF32 (n : Nat) : Nat :=
  if n < 16777216 then n
  else
    let k := log2Fuel n n - 23
    let q := n / 2 ^ k
    let r := n % 2 ^ k
    let h := 2 ^ (k - 1)
    let q2 := if h < r ∨ (r = h ∧ q % 2 = 1) then q + 1 else q
    q2 * 2 ^ k

/-- Rust `format!("{:.2}", n as f32)` for a `u32` value `n`: the float is
an exact integer, so the rendering is that integer followed by ".00". -/
def floatFormat2 (n : Nat) : String :=
  Nat.repr (roundF32 n) ++ ".00"

/-- One step of `u32::from_str_radix(s, 16)`: fold a digit into the
accumulator, failing on a non-hex character or on overflow past
`u32::MAX`. -/
def parseHexDigits : List Char → Nat → Option Nat
  | [], acc => some acc
  | c :: rest, acc =>
    let d : Option Nat :=
      if 48 ≤ c.toNat ∧ c.toNat ≤ 57 then some (c.toNat - 48)
      else if 97 ≤ c.toNat ∧ c.toNat ≤ 102 then some (c.toNat - 87)
      else if 65 ≤ c.toNat ∧ c.toNat ≤ 70 then some (c.toNat - 55)
      else none
    match d with
    | none => none
    | some d =>
      let acc2 := acc * 16 + d
      if acc2 < 4294967296 then parseHexDigits rest acc2 else none

/-- Rust `str::starts_with` on two strings, computed on the underlying
character lists. -/
def startsWithStr (s p : String) : Bool :=
  startsWithChars s.data p.data
where
  startsWithChars : List Char → List Char → Bool
    | _, [] => true
    | [], _ :: _ => false
    | a :: as, b :: bs => a = b && startsWithChars as bs

/-- Rust's byte slice `&s[n..]` of a string, used only where the first
`n` bytes are known to be ASCII, so dropping `n` characters is exact. -/
def strDrop (s : String) (n : Nat) : String :=
  String.mk (s.data.drop n)

/-- Rust `u32::from_str_radix(s, 16).ok()`: optional leading `+`, at least
one digit, digits `0-9a-fA-F`, overflow rejected. -/
def parseHexU32 (s : String) : Option Nat :=
  match s.data with
  | [] => none
  | c :: rest =>
    if c = '+' then
      match rest with
      | [] => none
      | _ => parseHexDigits rest 0
    else parseHexDigits (c :: rest) 0

/-- `ChunkHeader` (nom_parser.rs): `{typ: u16, header_size: u16, chunk_size: u32}`. -/
structure ChunkHeader where
  typ : Nat
  headerSize : Nat
  chunkSize : Nat
  deriving DecidableEq, Repr

/-- `ChunkHeader::parse`: `tuple((le_u16, le_u16, le_u32))`. -/
def ChunkHeader.parse (input : List Nat) : Option (List Nat × ChunkHeader) :=
  match leU16 input with
  | none => none
  | some (r1, typ) =>
    match leU16 r1 with
    | none => none
    | some (r2, headerSize) =>
      match leU32 r2 with
      | none => none
      | some (r3, chunkSize) => some (r3, { typ, headerSize, chunkSize })

/-- `StringPoolChunk` (nom_parser.rs). -/
structure StringPoolChunk where
  header : ChunkHeader
  stringCount : Nat
  styleCount : Nat
  flags : Nat
  isUtf8 : Bool
  stringsStart : Nat
  stylesStart : Nat
  deriving DecidableEq, Repr

/-- `parser::parse_string_pool_header`: chunk header plus five `u32`
fields; `is_utf8 := (flags & 0x100) > 0`. -/
def parseStringPoolHeader (input : List Nat) : Option (List Nat × StringPoolChunk) :=
  match ChunkHeader.parse input with
  | none => none
  | some (r0, header) =>
    match leU32 r0 with
    | none => none
    | some (r1, stringCount) =>
      match leU32 r1 with
      | none => none
      | some (r2, styleCount) =>
        match leU32 r2 with
        | none => none
        | some (r3, flags) =>
          match leU32 r3 with
          | none => none
          | some (r4, stringsStart) =>
            match leU32 r4 with
            | none => none
            | some (r5, stylesStart) =>
              some (r5, { header, stringCount, styleCount, flags,
                          isUtf8 := 0 < flags % 512 / 256, stringsStart, stylesStart })

/-- `StringPoolChunk::extract_string` (nom_parser.rs, lines 165-201).
UTF-8 variant: read one length byte, then skip one byte via `&buf[1..]`
(which panics when that slice is empty), check the remaining length,
take that many bytes, truncate at NUL, decode lossily.  UTF-16 variant:
one 16-bit length, check `2 * len` bytes remain, decode. -/
def extractString (pool : StringPoolChunk) (stringBuffer : List Nat) : RResult String :=
  if pool.isUtf8 then
    match leU8 stringBuffer with
    | none => .err .strE
    | some (rest, strLen) =>
      match sliceFrom rest 1 with
      | none => .crash
      | some rest2 =>
        if rest2.length < strLen then .err .bufferNotEnough
        else .ok (String.mk (utf8Lossy (truncAtZero ((rest2.take strLen).map (· % 256)))))
  else
    match leU16 stringBuffer with
    | none => .err .strE
    | some (rest, strLen) =>
      if rest.length < strLen * 2 then .err .bufferNotEnough
      else
        match countP leU16 strLen rest with
        | none => .err .strE
        | some (_, units) => .ok (String.mk (utf16Lossy (truncAtZero units)))

/-- `parser::read_strings` (nom_parser.rs, lines 569-596): walk the offset
table; an offset at or past the end of the payload stops the walk and the
strings decoded so far are returned; `BufferNotEnough` from a single entry
likewise stops the walk; any other entry error is fatal for the pool. -/
def readStrings (stringsBuffer : List Nat) (pool : StringPoolChunk) : List Nat → RResult (List String)
  | [] => .ok []
  | offset :: rest =>
    if stringsBuffer.length ≤ offset then .ok []
    else
      match extractString pool (stringsBuffer.drop offset) with
      | .ok s =>
        match readStrings stringsBuffer pool rest with
        | .ok l => .ok (s :: l)
        | r => r
      | .err .bufferNotEnough => .ok []
      | .err e => .err e
      | .crash => .crash
      | .fuelOut => .fuelOut

/-- `parser::string_table` (nom_parser.rs, lines 532-567): parse the pool
header, read `string_count` 32-bit offsets, slice the payload at
`strings_start` (a panic when it lies outside the chunk), and read the
strings.  The style table is not decoded. -/
def stringTable (stringChunk : List Nat) : RResult (List String) :=
  match parseStringPoolHeader stringChunk with
  | none => .err .stringPoolHeader
  | some (next, pool) =>
    match countP leU32 pool.stringCount next with
    | none => .err .stringPool
    | some (_, stringOffsets) =>
      match sliceFrom stringChunk pool.stringsStart with
      | none => .crash
      | some stringsStart => readStrings stringsStart pool stringOffsets

/-- `TableHeader` (nom_parser.rs): chunk header plus `package_count`. -/
structure TableHeader where
  header : ChunkHeader
  packageCount : Nat
  deriving DecidableEq, Repr

/-- `parser::parse_table`. -/
def parseTable (input : List Nat) : Option (List Nat × TableHeader) :=
  match ChunkHeader.parse input with
  | none => none
  | some (r0, header) =>
    match leU32 r0 with
    | none => none
    | some (r1, packageCount) => some (r1, { header, packageCount })

/-- `PackageChunkHeader` (nom_parser.rs): the 128-code-unit name is kept
decoded, as in the Rust struct. -/
structure PackageChunkHeader where
  header : ChunkHeader
  id : Nat
  name : String
  typeStrings : Nat
  lastPublicType : Nat
  keyStrings : Nat
  lastPublicKey : Nat
  deriving DecidableEq, Repr

/-- `PackageChunkHeader::parse`: chunk header, `id`, 128 `u16` name code
units (NUL-truncated, UTF-16 lossy), and four `u32` offsets. -/
def PackageChunkHeader.parse (input : List Nat) : Option (List Nat × PackageChunkHeader) :=
  match ChunkHeader.parse input with
  | none => none
  | some (r0, header) =>
    match leU32 r0 with
    | none => none
    | some (r1, id) =>
      match countP leU16 128 r1 with
      | none => none
      | some (r2, nameUnits) =>
        match leU32 r2 with
        | none => none
        | some (r3, typeStrings) =>
          match leU32 r3 with
          | none => none
          | some (r4, lastPublicType) =>
            match leU32 r4 with
            | none => none
            | some (r5, keyStrings) =>
              match leU32 r5 with
              | none => none
              | some (r6, lastPublicKey) =>
                some (r6, { header, id,
                            name := String.mk (utf16Lossy (truncAtZero nameUnits)),
                            typeStrings, lastPublicType, keyStrings, lastPublicKey })

/-- `TypeSpecChunkHeader` (nom_parser.rs). -/
structure TypeSpecChunkHeader where
  header : ChunkHeader
  typeId : Nat
  res0 : Nat
  res1 : Nat
  entryCount : Nat
  deriving DecidableEq, Repr

/-- `TypeSpecChunkHeader::parse`: header fields followed by `entry_count`
32-bit entry-configuration masks. -/
def TypeSpecChunkHeader.parse (input : List Nat) : Option (List Nat × (TypeSpecChunkHeader × List Nat)) :=
  match ChunkHeader.parse input with
  | none => none
  | some (r0, header) =>
    match leU8 r0 with
    | none => none
    | some (r1, typeId) =>
      match leU8 r1 with
      | none => none
      | some (r2, res0) =>
        match leU16 r2 with
        | none => none
        | some (r3, res1) =>
          match leU32 r3 with
          | none => none
          | some (r4, entryCount) =>
            match countP leU32 entryCount r4 with
            | none => none
            | some (r5, entryFlags) =>
              some (r5, ({ header, typeId, res0, res1, entryCount }, entryFlags))

/-- `TypeChunkConfig` (nom_parser.rs). -/
structure TypeChunkConfig where
  structureSize : Nat
  data : List Nat
  deriving DecidableEq, Repr

/-- `TypeChunkHeader::type_chunk_config`: a `u32` total size followed by
`total_size - 4` raw bytes.  The Rust subtraction is on `usize`; when
`total_size < 4` it wraps to an enormous count that no finite input can
satisfy, so the parse fails. -/
def typeChunkConfig (input : List Nat) : Option (List Nat × TypeChunkConfig) :=
  match leU32 input with
  | none => none
  | some (r0, totalSize) =>
    if totalSize < 4 then none
    else
      match countP leU8 (totalSize - 4) r0 with
      | none => none
      | some (r1, data) => some (r1, { structureSize := totalSize, data })

/-- `TypeChunkHeader` (nom_parser.rs). -/
structure TypeChunkHeader where
  header : ChunkHeader
  id : Nat
  flags : Nat
  res1 : Nat
  entryCount : Nat
  entriesStart : Nat
  config : TypeChunkConfig
  deriving DecidableEq, Repr

/-- `TypeChunkHeader::parse`. -/
def TypeChunkHeader.parse (input : List Nat) : Option (List Nat × TypeChunkHeader) :=
  match ChunkHeader.parse input with
  | none => none
  | some (r0, header) =>
    match leU8 r0 with
    | none => none
    | some (r1, id) =>
      match leU8 r1 with
      | none => none
      | some (r2, flags) =>
        match leU16 r2 with
        | none => none
        | some (r3, res1) =>
          match leU32 r3 with
          | none => none
          | some (r4, entryCount) =>
            match leU32 r4 with
            | none => none
            | some (r5, entriesStart) =>
              match typeChunkConfig r5 with
              | none => none
              | some (r6, config) =>
                some (r6, { header, id, flags, res1, entryCount, entriesStart, config })

/-- `TableEntry` (nom_parser.rs): `{size: u16, flags: u16, string_index: u32}`. -/
structure TableEntry where
  size : Nat
  flags : Nat
  stringIndex : Nat
  deriving DecidableEq, Repr

/-- `TableEntry::parse`. -/
def TableEntry.parse (input : List Nat) : Option (List Nat × TableEntry) :=
  match leU16 input with
  | none => none
  | some (r0, size) =>
    match leU16 r0 with
    | none => none
    | some (r1, flags) =>
      match leU32 r1 with
      | none => none
      | some (r2, stringIndex) => some (r2, { size, flags, stringIndex })

/-- `TableMapEntry` (nom_parser.rs): `{parent: u32, count: u32}`. -/
structure TableMapEntry where
  parent : Nat
  count : Nat
  deriving DecidableEq, Repr

/-- `TableMapEntry::parse`. -/
def TableMapEntry.parse (input : List Nat) : Option (List Nat × TableMapEntry) :=
  match leU32 input with
  | none => none
  | some (r0, parent) =>
    match leU32 r0 with
    | none => none
    | some (r1, count) => some (r1, { parent, count })

/-- `ResValue` (nom_parser.rs): `{size: u16, res0: u8, data_type: u8, data: u32}`. -/
structure ResValue where
  size : Nat
  res0 : Nat
  dataType : Nat
  data : Nat
  deriving DecidableEq, Repr

/-- `ResValue::parse`: the third byte read is discarded and `res0` is
forced to 0, as in the source. -/
def ResValue.parse (input : List Nat) : Option (List Nat × ResValue) :=
  match leU16 input with
  | none => none
  | some (r0, size) =>
    match leU8 r0 with
    | none => none
    | some (r1, _) =>
      match leU8 r1 with
      | none => none
      | some (r2, dataType) =>
        match leU32 r2 with
        | none => none
        | some (r3, data) => some (r3, { size, res0 := 0, dataType, data })

/-- `ResValue::as_string` (nom_parser.rs, lines 474-489).  `ResType`
constants: STRING 0x03, INT_BOOLEAN 0x12, INT_DEC 0x10, INT_HEX 0x11,
FLOAT 0x04 (note the Rust renders `self.data as f32`, a numeric
conversion), REFERENCE 0x01, DYNAMIC_REFERENCE 0x07, ATTRIBUTE 0x02;
everything else renders as `None`. -/
def ResValue.asString (v : ResValue) (strings : List String) : Option String :=
  if v.dataType = 0x03 then strings.get? v.data
  else if v.dataType = 0x12 then some (if v.data ≠ 0 then "true" else "false")
  else if v.dataType = 0x10 then some (Nat.repr v.data)
  else if v.dataType = 0x11 then some ("0x" ++ hexStrU v.data)
  else if v.dataType = 0x04 then some (floatFormat2 v.data)
  else if v.dataType = 0x01 then some ("@res/0x" ++ hexStrL v.data)
  else if v.dataType = 0x07 then some ("@dyn/0x" ++ hexStrU v.data)
  else if v.dataType = 0x02 then some ("@attr/0x" ++ hexStrL v.data)
  else none

/-- `TableMap` (nom_parser.rs): `{name: u32, value: ResValue}`. -/
structure TableMap where
  name : Nat
  value : ResValue
  deriving DecidableEq, Repr

/-- `TableMap::parse`. -/
def TableMap.parse (input : List Nat) : Option (List Nat × TableMap) :=
  match leU32 input with
  | none => none
  | some (r0, name) =>
    match ResValue.parse r0 with
    | none => none
    | some (r1, value) => some (r1, { name, value })

/-- `Package` (arsc_parser.rs): name, the two nested string pools, the
type-spec list and the `(TypeId, Vec<ResEntry>)` list. -/
structure Package where
  name : String
  typeStrings : List String
  keyStrings : List String
  typeSpec : List (TypeSpecChunkHeader × List Nat)
  types : List (Nat × List (List (Option String)))
  deriving DecidableEq, Repr

/-- `HashMap::insert`: replace the value at the key or add the binding. -/
def insertAssoc (m : List (Nat × Package)) (k : Nat) (v : Package) : List (Nat × Package) :=
  match m with
  | [] => [(k, v)]
  | (k0, v0) :: rest => if k0 = k then (k, v) :: rest else (k0, v0) :: insertAssoc rest k v

/-- `HashMap::get`. -/
def lookupAssoc (m : List (Nat × Package)) (k : Nat) : Option Package :=
  match m with
  | [] => none
  | (k0, v0) :: rest => if k0 = k then some v0 else lookupAssoc rest k

/-- The `for entry in entries` body of the `TABLE_TYPE` arm
(arsc_parser.rs, lines 140-181): `0xFFFFFFFF` yields an empty entry list;
otherwise slice `map_buffer` at the offset (panicking when out of range),
parse a `TableEntry`, and render either the complex map records or the
single `ResValue`. -/
def typeEntries (strings : List String) (mapBuffer : List Nat) : List Nat → RResult (List (List (Option String)))
  | [] => .ok []
  | entry :: rest =>
    if entry = 0xFFFFFFFF then
      match typeEntries strings mapBuffer rest with
      | .ok l => .ok ([] :: l)
      | r => r
    else
      match sliceFrom mapBuffer entry with
      | none => .crash
      | some buffer =>
        match TableEntry.parse buffer with
        | none => .err .tableEntry
        | some (next, te) =>
          if te.flags = 1 then
            match TableMapEntry.parse next with
            | none => .err .tableEntry
            | some (next2, me) =>
              match countP TableMap.parse me.count next2 with
              | none => .err .tableEntry
              | some (_, entryMaps) =>
                match typeEntries strings mapBuffer rest with
                | .ok l => .ok ((entryMaps.map (fun m => m.value.asString strings)) :: l)
                | r => r
          else
            match ResValue.parse next with
            | none => .err .tableEntry
            | some (_, rv) =>
              match typeEntries strings mapBuffer rest with
              | .ok l => .ok ([rv.asString strings] :: l)
              | r => r

/-- The per-package `loop` over the type sub-stream (arsc_parser.rs,
lines 103-213).  `TABLE_SPEC` (0x0202) appends a spec; `TABLE_TYPE`
(0x0201) with `id == 0` prints a warning and `continue`s — without
advancing `type_buffer`, so only the fuel decreases; `TABLE_LIBRARY`
(0x0203), `TABLE_OVERLAYABLE` (0x0204) and `TABLE_STAGED_ALIAS` (0x0206)
hit `unimplemented!` and panic; anything else is logged and skipped.
After the dispatch the loop breaks when `chunk_size ≥ type_buffer.len()`
and otherwise advances by `chunk_size`. -/
def typeLoop (strings : List String) (specs : List (TypeSpecChunkHeader × List Nat))
    (types : List (Nat × List (List (Option String)))) (typeBuffer : List Nat) :
    Nat → RResult (List (TypeSpecChunkHeader × List Nat) × List (Nat × List (List (Option String))))
  | 0 => .fuelOut
  | fuel + 1 =>
    match ChunkHeader.parse typeBuffer with
    | none => .err .chunkHeader
    | some (_, ch) =>
      if ch.typ = 0x0202 then
        match TypeSpecChunkHeader.parse typeBuffer with
        | none => .err .typeSpecHeader
        | some (_, specEntry) =>
          if typeBuffer.length ≤ ch.chunkSize then .ok (specs ++ [specEntry], types)
          else typeLoop strings (specs ++ [specEntry]) types (typeBuffer.drop ch.chunkSize) fuel
      else if ch.typ = 0x0201 then
        match TypeChunkHeader.parse typeBuffer with
        | none => .err .typeChunkHeader
        | some (next, tch) =>
          if tch.id = 0 then typeLoop strings specs types typeBuffer fuel
          else
            match countP leU32 tch.entryCount next with
            | none => .err .typeChunkEntries
            | some (_, entries) =>
              match sliceFrom typeBuffer tch.entriesStart with
              | none => .crash
              | some mapBuffer =>
                match typeEntries strings mapBuffer entries with
                | .ok resEntries =>
                  if typeBuffer.length ≤ ch.chunkSize then
                    .ok (specs, types ++ [(tch.id, resEntries)])
                  else
                    typeLoop strings specs (types ++ [(tch.id, resEntries)]) (typeBuffer.drop ch.chunkSize) fuel
                | .err e => .err e
                | .crash => .crash
                | .fuelOut => .fuelOut
      else if ch.typ = 0x0203 ∨ ch.typ = 0x0204 ∨ ch.typ = 0x0206 then .crash
      else
        if typeBuffer.length ≤ ch.chunkSize then .ok (specs, types)
        else typeLoop strings specs types (typeBuffer.drop ch.chunkSize) fuel

/-- The top-level `while` of `Arsc::parse` (arsc_parser.rs, lines 61-232):
starting at offset 12, read a chunk header, dispatch on `STRING_POOL`
(0x0001) / `TABLE_PACKAGE` (0x0200) / anything else (logged and skipped),
then advance by the declared `chunk_size`.  Package decode slices the
file at `offset + type_strings`, `offset + key_strings` and at the type
sub-stream start — each a panic when outside the buffer — and inserts the
decoded `Package` into the map. -/
def arscLoop (binary : List Nat) (strings : List String) (pkgs : List (Nat × Package)) (offset : Nat) :
    Nat → RResult (List String × List (Nat × Package))
  | 0 => .fuelOut
  | fuel + 1 =>
    if offset < binary.length then
      match ChunkHeader.parse (binary.drop offset) with
      | none => .err .chunkHeader
      | some (_, ch) =>
        if ch.typ = 0x0001 then
          match stringTable (binary.drop offset) with
          | .ok strings2 => arscLoop binary strings2 pkgs (offset + ch.chunkSize) fuel
          | .err _ => .err .stringPool
          | .crash => .crash
          | .fuelOut => .fuelOut
        else if ch.typ = 0x0200 then
          match PackageChunkHeader.parse (binary.drop offset) with
          | none => .err .packageHeader
          | some (_, pkg) =>
            match sliceFrom binary (offset + pkg.typeStrings) with
            | none => .crash
            | some typesChunk =>
              match ChunkHeader.parse typesChunk with
              | none => .err .typeStrings
              | some (_, typesCh) =>
                match stringTable typesChunk with
                | .err _ => .err .typeStrings
                | .crash => .crash
                | .fuelOut => .fuelOut
                | .ok typeStringsV =>
                  match sliceFrom binary (offset + pkg.keyStrings) with
                  | none => .crash
                  | some keyChunk =>
                    match ChunkHeader.parse keyChunk with
                    | none => .err .keyStrings
                    | some (_, keyCh) =>
                      match stringTable keyChunk with
                      | .err _ => .err .keyStrings
                      | .crash => .crash
                      | .fuelOut => .fuelOut
                      | .ok keyStringsV =>
                        match sliceFrom binary (offset + typesCh.chunkSize + keyCh.chunkSize + pkg.header.headerSize) with
                        | none => .crash
                        | some typeBuffer =>
                          match typeLoop strings [] [] typeBuffer fuel with
                          | .ok (specs, typesV) =>
                            arscLoop binary strings
                              (insertAssoc pkgs pkg.id
                                { name := pkg.name, typeStrings := typeStringsV,
                                  keyStrings := keyStringsV, typeSpec := specs, types := typesV })
                              (offset + ch.chunkSize) fuel
                          | .err e => .err e
                          | .crash => .crash
                          | .fuelOut => .fuelOut
        else arscLoop binary strings pkgs (offset + ch.chunkSize) fuel
    else .ok (strings, pkgs)

/-- `Arsc::parse` (arsc_parser.rs, lines 50-235): parse the table header,
then run the chunk loop from offset 12 with empty state.  The Rust method
returns a copy of the input bytes and keeps the decoded global string pool
and package map in `self`; the result here is that decoded state. -/
def arscParse (binary : List Nat) (fuel : Nat) : RResult (List String × List (Nat × Package)) :=
  match parseTable binary with
  | none => .err .chunkHeader
  | some _ => arscLoop binary [] [] 12 fuel

/-- `Arsc::get_res_value` (arsc_parser.rs, lines 237-268): split the id
into package (bits 24-31), type (bits 16-23) and entry (bits 0-15);
`packages.get(&package_id).unwrap()` panics when the package is absent;
otherwise collect the entry lists at `entry` of every `types` tuple whose
type id matches and return the first non-`None` string across them. -/
def getResValue (packages : List (Nat × Package)) (resId : Nat) : RResult (Option String) :=
  let r := resId % 4294967296
  let packageId := r / 16777216
  let typ := r / 65536 % 256
  let entry := r % 65536
  match lookupAssoc packages packageId with
  | none => .crash
  | some pkg =>
    let entryLists := (pkg.types.filter (fun t => t.1 = typ)).filterMap (fun t => t.2.get? entry)
    .ok ((entryLists.filterMap (fun inner => (inner.filterMap id).head?)).head?)

/-- `XmlNamespace` (xml_parser.rs); `pfx` is the Rust field holding the
namespace prefix string. -/
structure XmlNamespace where
  pfx : String
  uri : String
  deriving DecidableEq, Repr

/-- `XMLTreeAttribute` (xml_parser.rs): `{ns, name, raw_value: u32, typed_value: ResValue}`. -/
structure XMLTreeAttribute where
  ns : Nat
  name : Nat
  rawValue : Nat
  typedValue : ResValue
  deriving DecidableEq, Repr

/-- `XMLTreeAttribute::parse`. -/
def XMLTreeAttribute.parse (input : List Nat) : Option (List Nat × XMLTreeAttribute) :=
  match leU32 input with
  | none => none
  | some (r0, ns) =>
    match leU32 r0 with
    | none => none
    | some (r1, name) =>
      match leU32 r1 with
      | none => none
      | some (r2, rawValue) =>
        match ResValue.parse r2 with
        | none => none
        | some (r3, typedValue) => some (r3, { ns, name, rawValue, typedValue })

/-- `XMLTreeAttrExt` (xml_parser.rs). -/
structure XMLTreeAttrExt where
  ns : Nat
  name : Nat
  attributeStart : Nat
  attributeSize : Nat
  attributeCount : Nat
  idIndex : Nat
  classIndex : Nat
  styleIndex : Nat
  deriving DecidableEq, Repr

/-- `AndroidManifest::parse_tree_attr_ext`: two `u32` then six `u16`. -/
def parseTreeAttrExt (input : List Nat) : Option (List Nat × XMLTreeAttrExt) :=
  match leU32 input with
  | none => none
  | some (r0, ns) =>
    match leU32 r0 with
    | none => none
    | some (r1, name) =>
      match leU16 r1 with
      | none => none
      | some (r2, attributeStart) =>
        match leU16 r2 with
        | none => none
        | some (r3, attributeSize) =>
          match leU16 r3 with
          | none => none
          | some (r4, attributeCount) =>
            match leU16 r4 with
            | none => none
            | some (r5, idIndex) =>
              match leU16 r5 with
              | none => none
              | some (r6, classIndex) =>
                match leU16 r6 with
                | none => none
                | some (r7, styleIndex) =>
                  some (r7, { ns, name, attributeStart, attributeSize, attributeCount,
                              idIndex, classIndex, styleIndex })

/-- `AndroidManifest::parse_tree_attr_ext_end`: only `ns` and `name`. -/
def parseTreeAttrExtEnd (input : List Nat) : Option (List Nat × XMLTreeAttrExt) :=
  match leU32 input with
  | none => none
  | some (r0, ns) =>
    match leU32 r0 with
    | none => none
    | some (r1, name) =>
      some (r1, { ns, name, attributeStart := 0, attributeSize := 0, attributeCount := 0,
                  idIndex := 0, classIndex := 0, styleIndex := 0 })

/-- The reference-chasing `while` over an attribute value (xml_parser.rs,
lines 147-165), written with the structural fuel `5 - rec_count`: the Rust
guard `rec_count < 5` is exactly `fuel > 0`.  Each successful resolver hit
substitutes the value and increments the count; a value without the
`@res/0x` prefix, an unparsable hex id, or an absent resolver result stops
the loop.  `get_res_value` is called on the supplied package map and its
panic propagates. -/
def chaseGo (pkgs : List (Nat × Package)) : Nat → Option String → Nat → RResult (Option String × Nat)
  | 0, v, cnt => .ok (v, cnt)
  | fuel + 1, v, cnt =>
    match v with
    | none => .ok (none, cnt)
    | some s =>
      if startsWithStr s "@res/0x" then
        match parseHexU32 (strDrop s 7) with
        | some resId =>
          match getResValue pkgs resId with
          | .ok (some s2) => chaseGo pkgs fuel (some s2) (cnt + 1)
          | .ok none => .ok (some s, cnt)
          | .err e => .err e
          | .crash => .crash
          | .fuelOut => .fuelOut
        | none => .ok (some s, cnt)
      else .ok (some s, cnt)

/-- The whole substitution loop for one attribute value, started at
`rec_count = 0`; returns the final value together with the number of
substitutions performed. -/
def resolveChase (pkgs : List (Nat × Package)) (v : Option String) : RResult (Option String × Nat) :=
  chaseGo pkgs 5 v 0

/-- Attribute-name selection (xml_parser.rs, lines 138-142): take the
attribute-name-table entry for `resource_ids[name]` when defined, else
fall back to `strings[name]`.  `attrTable` stands for the static
`attributes::get_attribute_name` mapping, whose module is not part of the
sources under verification; it is kept abstract. -/
def selectAttrName (resourceIds : List Nat) (strings : List String)
    (attrTable : Nat → Option String) (nameIdx : Nat) : Option String :=
  match (resourceIds.get? nameIdx).bind attrTable with
  | some n => some n
  | none => strings.get? nameIdx

/-- Attribute-value rendering (xml_parser.rs, lines 145-166): render the
typed value via `as_string`, then, when an ARSC is present, run the
reference-chasing loop. -/
def renderAttrValue (strings : List String) (arscOpt : Option (List (Nat × Package)))
    (tv : ResValue) : RResult (Option String) :=
  match arscOpt with
  | none => .ok (tv.asString strings)
  | some pkgs =>
    match resolveChase pkgs (tv.asString strings) with
    | .ok (v, _) => .ok v
    | .err e => .err e
    | .crash => .crash
    | .fuelOut => .fuelOut

/-- Processing of one parsed attribute (xml_parser.rs, lines 132-175):
select a name, render the value, and emit the pair only when both are
present (`if let (Some(attr_name), Some(attr_value))`). -/
def processAttr (strings : List String) (resourceIds : List Nat)
    (attrTable : Nat → Option String) (arscOpt : Option (List (Nat × Package)))
    (attr : XMLTreeAttribute) : RResult (Option (String × String)) :=
  match renderAttrValue strings arscOpt attr.typedValue with
  | .ok v =>
    match selectAttrName resourceIds strings attrTable attr.name, v with
    | some n, some s => .ok (some (n, s))
    | _, _ => .ok none
  | .err e => .err e
  | .crash => .crash
  | .fuelOut => .fuelOut

/-- The `for _ in 0..attribute_count` loop of the `XML_START_ELEMENT` arm
(xml_parser.rs, lines 125-176): parse an attribute record, advance the
cursor by the declared `attribute_size` stride (a panic when it overruns
the slice), process the attribute, and collect the pairs that survive. -/
def attrLoop (strings : List String) (resourceIds : List Nat)
    (attrTable : Nat → Option String) (arscOpt : Option (List (Nat × Package)))
    (input : List Nat) (stride : Nat) : Nat → RResult (List (String × String))
  | 0 => .ok []
  | n + 1 =>
    match XMLTreeAttribute.parse input with
    | none => .err .attribute
    | some (_, attr) =>
      match sliceFrom input stride with
      | none => .crash
      | some input2 =>
        match processAttr strings resourceIds attrTable arscOpt attr with
        | .ok o =>
          match attrLoop strings resourceIds attrTable arscOpt input2 stride n with
          | .ok l => .ok (match o with | some nv => nv :: l | none => l)
          | r => r
        | .err e => .err e
        | .crash => .crash
        | .fuelOut => .fuelOut

/-- The XML events handed to the quick_xml writer; the writer itself is an
out-of-scope collaborator, so emission is modelled as the event list. -/
inductive XmlEvent where
  | decl
  | startElement (name : String) (attrs : List (String × String))
  | endElement (name : String)
  deriving DecidableEq, Repr

/-- Decoder state of `AndroidManifest` during `parse`: the local string
pool, the resource-id map, the namespace in effect and the events written
so far. -/
structure ManifestState where
  strings : List String
  resourceIds : List Nat
  nsState : XmlNamespace
  events : List XmlEvent
  deriving DecidableEq, Repr

/-- The chunk `while` of `AndroidManifest::parse` (xml_parser.rs, lines
69-218).  Dispatch: STRING_POOL 0x0001; XML_RESOURCE_MAP 0x0180 (the
`u32` element count is `(chunk_size - header_size) / 4`; the Rust
subtraction wraps when `header_size > chunk_size`, making the count
unsatisfiable, hence an error); XML_START_NAMESPACE 0x0100 (skip 8 bytes
— a panic when fewer remain — then read two string indices and index the
pool with them, panicking when out of range); XML_START_ELEMENT 0x0102;
XML_END_ELEMENT 0x0103; XML_CDATA 0x0104 (skipped); XML_END_NAMESPACE
0x0101 breaks; unknown types break.  Each iteration advances by
`chunk_size`. -/
def manifestLoop (binary : List Nat) (arscOpt : Option (List (Nat × Package)))
    (attrTable : Nat → Option String) (st : ManifestState) (offset : Nat) :
    Nat → RResult (List XmlEvent)
  | 0 => .fuelOut
  | fuel + 1 =>
    if offset < binary.length then
      match ChunkHeader.parse (binary.drop offset) with
      | none => .err .chunkHeader
      | some (rest, ch) =>
        if ch.typ = 0x0001 then
          match stringTable (binary.drop offset) with
          | .ok strings2 =>
            manifestLoop binary arscOpt attrTable { st with strings := strings2 } (offset + ch.chunkSize) fuel
          | .err _ => .err .stringPool
          | .crash => .crash
          | .fuelOut => .fuelOut
        else if ch.typ = 0x0180 then
          if ch.chunkSize < ch.headerSize then .err .resourceMap
          else
            match countP leU32 ((ch.chunkSize - ch.headerSize) / 4) rest with
            | none => .err .resourceMap
            | some (_, ids) =>
              manifestLoop binary arscOpt attrTable { st with resourceIds := ids } (offset + ch.chunkSize) fuel
        else if ch.typ = 0x0100 then
          match sliceFrom rest 8 with
          | none => .crash
          | some input1 =>
            match leU32 input1 with
            | none => .err .startNamespace
            | some (r1, pfxIdx) =>
              match leU32 r1 with
              | none => .err .startNamespace
              | some (_, uriIdx) =>
                match st.strings.get? pfxIdx with
                | none => .crash
                | some p =>
                  match st.strings.get? uriIdx with
                  | none => .crash
                  | some u =>
                    manifestLoop binary arscOpt attrTable { st with nsState := { pfx := p, uri := u } }
                      (offset + ch.chunkSize) fuel
        else if ch.typ = 0x0102 then
          match sliceFrom rest 8 with
          | none => .crash
          | some input1 =>
            match parseTreeAttrExt input1 with
            | none => .err .startElement
            | some (_, ext) =>
              let elemName := (st.strings.get? ext.name).getD "UNKNOWN"
              match sliceFrom input1 ext.attributeStart with
              | none => .crash
              | some input2 =>
                match attrLoop st.strings st.resourceIds attrTable arscOpt input2 ext.attributeSize ext.attributeCount with
                | .ok attrs =>
                  manifestLoop binary arscOpt attrTable
                    { st with events := st.events ++ [.startElement elemName attrs] }
                    (offset + ch.chunkSize) fuel
                | .err e => .err e
                | .crash => .crash
                | .fuelOut => .fuelOut
        else if ch.typ = 0x0103 then
          match sliceFrom rest 8 with
          | none => .crash
          | some input1 =>
            match parseTreeAttrExtEnd input1 with
            | none => .err .startElement
            | some (_, ext) =>
              let elemName := (st.strings.get? ext.name).getD "UNKNOWN"
              manifestLoop binary arscOpt attrTable
                { st with events := st.events ++ [.endElement elemName] }
                (offset + ch.chunkSize) fuel
        else if ch.typ = 0x0104 then
          manifestLoop binary arscOpt attrTable st (offset + ch.chunkSize) fuel
        else .ok st.events
    else .ok st.events

/-- `AndroidManifest::parse` (xml_parser.rs, lines 36-227): write the XML
declaration, parse the outer chunk header (its type is only warned about),
then run the chunk loop from offset 8.  The initial namespace is the one
set in `AndroidManifest::new`. -/
def manifestParse (binary : List Nat) (arscOpt : Option (List (Nat × Package)))
    (attrTable : Nat → Option String) (fuel : Nat) : RResult (List XmlEvent) :=
  match ChunkHeader.parse binary with
  | none => .err .chunkHeader
  | some _ =>
    manifestLoop binary arscOpt attrTable
      { strings := [], resourceIds := [],
        nsState := { pfx := "android", uri := "http://schemas.android.com/apk/res/android" },
        events := [.decl] } 8 fuel

/-! ## Concrete inputs used by the theorems -/

/-- A 32-byte binary manifest: the outer XML header, then one
`XML_START_NAMESPACE` (0x0100) chunk whose line/comment words are zero and
whose prefix and uri string indices are both 0 — while no string pool has
been decoded, so the pool is empty. -/
def c1bytes : List Nat :=
  [3, 0, 8, 0, 32, 0, 0, 0] ++ [0, 1, 16, 0, 24, 0, 0, 0] ++
  [0, 0, 0, 0, 0, 0, 0, 0] ++ [0, 0, 0, 0] ++ [0, 0, 0, 0]

/-- A 20-byte resource table: a valid `TABLE` header (12 bytes), then one
chunk of unknown type 0x0099 whose declared `chunk_size` is 0. -/
def c3bytes : List Nat :=
  [2, 0, 12, 0, 20, 0, 0, 0, 1, 0, 0, 0] ++ [153, 0, 8, 0, 0, 0, 0, 0]

/-- A 360-byte resource table: `TABLE` header; one `TABLE_PACKAGE` chunk
(id 127, header size 284, empty name) whose `type_strings`/`key_strings`
offsets (284/312, package-relative) point at two empty string pools of 28
bytes each; the per-type sub-stream that follows (file offset 352) starts
with a `TABLE_LIBRARY` (0x0203) chunk header. -/
def c4bytes : List Nat :=
  [2, 0, 12, 0, 104, 1, 0, 0, 1, 0, 0, 0]
  ++ ([0, 2, 28, 1, 92, 1, 0, 0] ++ [127, 0, 0, 0] ++ List.replicate 256 0
      ++ [28, 1, 0, 0] ++ [0, 0, 0, 0] ++ [56, 1, 0, 0] ++ [0, 0, 0, 0])
  ++ ([1, 0, 28, 0, 28, 0, 0, 0] ++ [0, 0, 0, 0] ++ [0, 0, 0, 0]
      ++ [0, 1, 0, 0] ++ [28, 0, 0, 0] ++ [0, 0, 0, 0])
  ++ ([1, 0, 28, 0, 28, 0, 0, 0] ++ [0, 0, 0, 0] ++ [0, 0, 0, 0]
      ++ [0, 1, 0, 0] ++ [28, 0, 0, 0] ++ [0, 0, 0, 0])
  ++ [3, 2, 8, 0, 8, 0, 0, 0]

/-- A UTF-8 string pool header (flags bit 0x100 set), as used by the
single-entry theorems below. -/
def poolU8 : StringPoolChunk :=
  { header := { typ := 1, headerSize := 28, chunkSize := 28 }, stringCount := 0, styleCount := 0,
    flags := 256, isUtf8 := true, stringsStart := 28, stylesStart := 0 }

/-- A package map holding a reference chain six links deep: resource
`0x7f0100NN` (type 1, entry NN) renders to `@res/0x7f0100(NN+1)`. -/
def chainPkgs : List (Nat × Package) :=
  [(0x7f, { name := "p", typeStrings := [], keyStrings := [], typeSpec := [],
            types := [(1, [[some "@res/0x7f010001"], [some "@res/0x7f010002"],
                           [some "@res/0x7f010003"], [some "@res/0x7f010004"],
                           [some "@res/0x7f010005"], [some "@res/0x7f010006"]])] })]

/-! ## Shared helper lemmas -/

set_option maxRecDepth 10000

/-- The substitution counter returned by `chaseGo` grows by at most the
fuel supplied. -/
theorem chaseGo_count_le (pkgs : List (Nat × Package)) :
    ∀ fuel v cnt r k, chaseGo pkgs fuel v cnt = .ok (r, k) → k ≤ cnt + fuel := by
  intro fuel
  induction fuel with
  | zero =>
    intro v cnt r k h
    simp only [chaseGo, RResult.ok.injEq, Prod.mk.injEq] at h
    omega
  | succ m ih =>
    intro v cnt r k h
    match v with
    | none =>
      simp only [chaseGo, RResult.ok.injEq, Prod.mk.injEq] at h
      omega
    | some s =>
      simp only [chaseGo] at h
      split at h
      · split at h
        · split at h
          · have := ih (some _) (cnt + 1) r k h
            omega
          · simp only [RResult.ok.injEq, Prod.mk.injEq] at h
            omega
          · exact absurd h (by simp)
          · exact absurd h (by simp)
          · exact absurd h (by simp)
        · simp only [RResult.ok.injEq, Prod.mk.injEq] at h
          omega
      · simp only [RResult.ok.injEq, Prod.mk.injEq] at h
        omega

/-- A value without the `@res/0x` lead is returned unchanged by the chase
loop, with no substitution counted. -/
theorem chaseGo_no_ref (pkgs : List (Nat × Package)) (fuel : Nat) (s : String) (cnt : Nat)
    (hsw : startsWithStr s "@res/0x" = false) :
    chaseGo pkgs (fuel + 1) (some s) cnt = .ok (some s, cnt) := by
  simp only [chaseGo, hsw, Bool.false_eq_true, if_false]

/-- When the resolver returns absent for the parsed id, the chase loop
stops at once and returns the value unchanged. -/
theorem chaseGo_absent (pkgs : List (Nat × Package)) (fuel : Nat) (s : String) (cnt : Nat)
    (resId : Nat) (hparse : parseHexU32 (strDrop s 7) = some resId)
    (hres : getResValue pkgs resId = .ok none) :
    chaseGo pkgs (fuel + 1) (some s) cnt = .ok (some s, cnt) := by
  simp only [chaseGo, hparse, hres]
  split
  · rfl
  · rfl

/-- `as_string` renders to `None` for every data type outside the eight
renderable tags (REFERENCE 1, ATTRIBUTE 2, STRING 3, FLOAT 4,
DYNAMIC_REFERENCE 7, INT_DEC 16, INT_HEX 17, INT_BOOLEAN 18) — in
particular for NULL 0, DIMENSION 5 and FRACTION 6. -/
theorem asString_none_of_unrenderable (tv : ResValue) (strings : List String)
    (h : tv.dataType ∉ ([1, 2, 3, 4, 7, 16, 17, 18] : List Nat)) :
    tv.asString strings = none := by
  simp only [List.mem_cons, List.not_mem_nil, not_or, or_false] at h
  obtain ⟨h1, h2, h3, h4, h7, h16, h17, h18⟩ := h
  simp [ResValue.asString, h1, h2, h3, h4, h7, h16, h17, h18]

/-! ## Claim theorems -/

/-- C1: the claim says `Arsc::parse` and `AndroidManifest::parse` never
panic and bound every read — including a namespace string index — by the
remaining input.  It fails on the code: on `c1bytes`, a 32-byte manifest
whose `XML_START_NAMESPACE` chunk carries string index 0 against an empty
string pool, `parse_namespace`'s `self.strings[prefix]` indexes out of
bounds and the decoder panics instead of returning a `ParseError`. -/
theorem manifestParse_crashes_on_namespace_index :
    manifestParse c1bytes none (fun _ => none) 5 = .crash := rfl

/-- C2: the claim says `get_res_value` returns `None` when the package-id
bits of the resource id are not a key of the packages map.  It fails on
the code: for id `0x01000000` against an empty package map,
`packages.get(&package_id).unwrap()` panics instead. -/
theorem getResValue_crashes_on_absent_package :
    getResValue [] 0x01000000 = .crash := rfl

/-- C3: the claim says both decoders terminate on every finite input,
in particular when a chunk declares `chunk_size == 0`.  It fails on the
code: on `c3bytes` (a well-formed table header followed by an unknown
chunk with `chunk_size = 0`) the offset never advances and
`Arsc::parse` loops forever — the run exhausts any amount of fuel. -/
theorem arscParse_loops_forever_on_zero_chunk_size (fuel : Nat) :
    arscParse c3bytes fuel = .fuelOut := by
  have h : ∀ n, arscLoop c3bytes [] [] 12 n = .fuelOut := by
    intro n
    induction n with
    | zero => rfl
    | succ k ih =>
      exact (rfl : arscLoop c3bytes [] [] 12 (k + 1) = arscLoop c3bytes [] [] 12 k).trans ih
  exact h fuel

/-- C4: the claim says a `TABLE_LIBRARY` chunk in a package's per-type
sub-stream is skipped by `chunk_size` without crashing.  It fails on the
code: on `c4bytes`, whose package sub-stream starts with a `TABLE_LIBRARY`
(0x0203) chunk, the decoder hits `unimplemented!` and panics. -/
theorem arscParse_crashes_on_table_library :
    arscParse c4bytes 10 = .crash := rfl

/-- C5 counterexample: the claim caps the replacement loop at four
substitutions (five total renderings).  On the six-deep reference chain
`chainPkgs`, starting from `@res/0x7f010000`, the loop performs five
substitutions — the returned counter is 5, exceeding the claimed four. -/
theorem resolveChase_exceeds_four_substitutions :
    ∃ r k, resolveChase chainPkgs (some "@res/0x7f010000") = .ok (r, k) ∧ 4 < k :=
  ⟨some "@res/0x7f010005", 5, rfl, by decide⟩

/-- C5 (amended): for every attribute value rendered with an ARSC present,
the `@res/0x` replacement loop performs at most five substitutions (i.e.
at most six total renderings of the value), and it stops as soon as the
value no longer starts with `@res/0x` or the resolver returns absent. -/
theorem resolveChase_bound_and_stop (pkgs : List (Nat × Package)) (v r : Option String) (k : Nat)
    (h : resolveChase pkgs v = .ok (r, k)) :
    k ≤ 5 ∧
    (∀ s, v = some s → startsWithStr s "@res/0x" = false → r = some s ∧ k = 0) ∧
    (∀ s resId, v = some s → parseHexU32 (strDrop s 7) = some resId →
      getResValue pkgs resId = .ok none → r = some s ∧ k = 0) := by
  refine ⟨?_, ?_, ?_⟩
  · have := chaseGo_count_le pkgs 5 v 0 r k h
    omega
  · intro s hv hsw
    subst hv
    have h2 : chaseGo pkgs 5 (some s) 0 = .ok (some s, 0) := chaseGo_no_ref pkgs 4 s 0 hsw
    rw [resolveChase] at h
    rw [h2] at h
    simp only [RResult.ok.injEq, Prod.mk.injEq] at h
    exact ⟨h.1.symm, h.2.symm⟩
  · intro s resId hv hparse hres
    subst hv
    have h2 : chaseGo pkgs 5 (some s) 0 = .ok (some s, 0) :=
      chaseGo_absent pkgs 4 s 0 resId hparse hres
    rw [resolveChase] at h
    rw [h2] at h
    simp only [RResult.ok.injEq, Prod.mk.injEq] at h
    exact ⟨h.1.symm, h.2.symm⟩

/-- Witness for the amended C5 theorem at a concrete run: the chase of a
value without the `@res/0x` lead returns it unchanged with count 0, and
the bound holds there. -/
theorem resolveChase_bound_and_stop_witness :
    resolveChase [] (some "x") = .ok (some "x", 0) ∧ (0 : Nat) ≤ 5 :=
  ⟨rfl, (resolveChase_bound_and_stop [] (some "x") (some "x") 0 rfl).1⟩

/-- C6: the claim says the UTF-8 entry decoder discards the first length
prefix (the UTF-16 code-unit count) and uses the second as the byte count.
It fails on the code: `extract_string` reads the FIRST byte as the length
and skips the SECOND.  On the entry `[2, 3, 97, 98, 99]` (UTF-16 count 2,
UTF-8 count 3, bytes "abc") the code takes 2 bytes and yields "ab",
where the documented layout demands 3 bytes, "abc". -/
theorem extractString_uses_first_length_byte :
    extractString poolU8 [2, 3, 97, 98, 99] = .ok "ab" := rfl

/-- C7: the claim says an entry whose declared length exceeds the
remaining buffer makes the pool return the strings decoded before it.
It fails on the code in the one-byte corner: with payload `[5]` and offset
table `[0]`, the declared length 5 exceeds the empty remainder, but
`extract_string` panics at `&buf[1..]` on the empty slice (the second
prefix byte is missing) instead of stopping softly. -/
theorem readStrings_crashes_on_one_byte_entry :
    readStrings [5] poolU8 [0] = .crash := rfl

/-- C8: the claim (and the code's own comment on `ResType::FLOAT`) says
FLOAT renders the two-decimal formatting of `data` re-interpreted
(bit-cast) as an `f32`.  It fails on the code: `as_string` computes
`self.data as f32`, a numeric conversion.  For `data = 0x3F800000` the
bit-cast is 1.0f ("1.00"), but the code renders the integer value
1065353216 ("1065353216.00"). -/
theorem asString_float_is_numeric_conversion :
    ResValue.asString { size := 8, res0 := 0, dataType := 4, data := 0x3F800000 } [] =
      some "1065353216.00" := rfl

/-- C9: the ARSC decoder is deterministic — two runs of `Arsc::parse`
over equal byte slices produce equal global string pools and equal
package maps. -/
theorem arscParse_deterministic (b1 b2 : List Nat) (fuel : Nat) (h : b1 = b2) :
    arscParse b1 fuel = arscParse b2 fuel := by
  rw [h]

/-- Witness for C9 at a concrete input. -/
theorem arscParse_deterministic_witness :
    arscParse [] 3 = arscParse [] 3 :=
  arscParse_deterministic [] [] 3 rfl

/-- C10: an attribute of a `START_ELEMENT` chunk appears in the emitted
element iff a name was selected (resource-id table first, string pool as
fallback) and the rendered value is present; an attribute whose typed
value has an unrenderable data type (NULL, DIMENSION, FRACTION or an
unrecognized tag) is processed to `None` — silently omitted — and the
attribute loop continues over the remaining attributes unchanged, so the
element itself is still emitted. -/
theorem attribute_emitted_iff (strings : List String) (resourceIds : List Nat)
    (attrTable : Nat → Option String) (arscOpt : Option (List (Nat × Package)))
    (a : XMLTreeAttribute) (n v : String) :
    (processAttr strings resourceIds attrTable arscOpt a = .ok (some (n, v)) ↔
      selectAttrName resourceIds strings attrTable a.name = some n ∧
      renderAttrValue strings arscOpt a.typedValue = .ok (some v)) ∧
    (a.typedValue.dataType ∉ ([1, 2, 3, 4, 7, 16, 17, 18] : List Nat) →
      processAttr strings resourceIds attrTable arscOpt a = .ok none) ∧
    (∀ input rest2 input2 stride k,
      XMLTreeAttribute.parse input = some (rest2, a) →
      sliceFrom input stride = some input2 →
      processAttr strings resourceIds attrTable arscOpt a = .ok none →
      attrLoop strings resourceIds attrTable arscOpt input stride (k + 1) =
        attrLoop strings resourceIds attrTable arscOpt input2 stride k) := by
  refine ⟨?_, ?_, ?_⟩
  · cases hr : renderAttrValue strings arscOpt a.typedValue with
    | ok v0 =>
      cases hn : selectAttrName resourceIds strings attrTable a.name with
      | none => cases v0 <;> simp [processAttr, hr, hn]
      | some n0 => cases v0 <;> simp [processAttr, hr, hn]
    | err e => simp [processAttr, hr]
    | crash => simp [processAttr, hr]
    | fuelOut => simp [processAttr, hr]
  · intro h
    have hnone := asString_none_of_unrenderable a.typedValue strings h
    have hrv : renderAttrValue strings arscOpt a.typedValue = .ok none := by
      cases arscOpt with
      | none => simp [renderAttrValue, hnone]
      | some pkgs =>
        have hz : resolveChase pkgs none = .ok (none, 0) := rfl
        simp [renderAttrValue, hnone, hz]
    cases hn : selectAttrName resourceIds strings attrTable a.name <;>
      simp [processAttr, hrv, hn]
  · intro input rest2 input2 stride k hpa hslice hproc
    simp only [attrLoop, hpa, hslice, hproc]
    cases hres : attrLoop strings resourceIds attrTable arscOpt input2 stride k <;> simp

/-- Witness for C10 at a concrete run: a NULL-typed attribute is omitted
(the processing yields `None`) while nothing fails. -/
theorem attribute_emitted_iff_witness :
    processAttr ["nm"] [] (fun _ => none) none
      { ns := 0, name := 0, rawValue := 0,
        typedValue := { size := 8, res0 := 0, dataType := 0, data := 0 } } = .ok none :=
  (attribute_emitted_iff ["nm"] [] (fun _ => none) none
    { ns := 0, name := 0, rawValue := 0,
      typedValue := { size := 8, res0 := 0, dataType := 0, data := 0 } } "nm" "x").2.1
    (by decide)

end Bxmlrs
